import Mathlib

/-!
Shallow embedding of the investment-return simulation engine of
`internal/api/handler/rendiments.go`: the handlers `SimulateCDB`,
`SimulatePoupanca`, `SimulatePoupancaMonthly`, and the CDB leg of
`SimulateMonthlyRendiments`.

Modelling conventions:
* Go `float64` values are modelled as exact rationals (`ℚ`); `math.Floor`
  is `Int.floor`, `math.Pow` with a natural-number exponent is `^`, and
  `math.Round` (round half away from zero) is `goRound`.
* The metric fetch `metricRepository.GetLastMetric` is modelled by an
  `Option ℚ` argument: `some v` means a successful fetch whose
  `metric.Value.InexactFloat64()` equals `v`; `none` means the fetch
  returned an error.
* A Go `(float64, error)` return value is a `GoResult`.  The simulators
  also call `ctx.AbortWithStatusJSON` on a failed fetch, but the value
  they then `return` is `0.0, nil`; the returned pair is what is
  modelled, since it is all their callers inspect.
* Go `int` arithmetic on the month and day counts is `ℕ` arithmetic here
  (every relevant quantity is non-negative).  In particular
  `months / 12.0` at line 153 of the source is Go integer division: the
  untyped constant `12.0` is converted to `int`, so the quotient is
  truncated.  `totalDaysOf` keeps this faithfully.
* Division by zero, which in Go float64 arithmetic produces a non-finite
  value (NaN or ±Inf) without faulting, is invisible in `ℚ` (where
  `x / 0 = 0`); the auxiliary model `GoF` near the end of the file tracks
  non-finite values for the one claim that is about this behaviour.
-/

namespace Rendiments

/-- Constants from `rendiments.go` lines 28-40.  `BUSINESS_DAYS` is only
used as `int(21.0) = 21`, and `ONE_YEAR_DAYS` only in the integer product
at line 153, so both are kept as `ℕ`. -/
def BUSINESS_DAYS : ℕ := 21

def CDI_PERCENT : ℚ := 100

def UNTIL_180_DAYS : ℚ := 22.5

def UNTIL_360_DAYS : ℚ := 20

def UNTIL_720_DAYS : ℚ := 17.5

def MORE_THAN_720_DAYS : ℚ := 15

def ONE_YEAR_DAYS : ℕ := 365

def MONTH_TAX_DEFAULT : ℚ := 0.005

def SELIC_LESS_THAN_EIGHT : ℚ := 0.085

/-- The JSON-bound request of lines 17-21: `initial_value`, `months`,
optional `accumulated`. -/
structure SimulationRequest where
  initialValue : ℚ
  months : ℕ
  accumulated : Option ℚ

/-- A Go `(float64, error)` pair as returned by the simulators.  The
error payload is irrelevant, so it is `Option Unit` (`none` = `nil`). -/
structure GoResult where
  val : ℚ
  err : Option Unit

/-- Go `math.Round`: the nearest integer, rounding half away from zero. -/
def goRound (x : ℚ) : ℚ :=
  if 0 ≤ x then ((⌊x + 1/2⌋ : ℤ) : ℚ) else ((⌈x - 1/2⌉ : ℤ) : ℚ)

/-- The `math.Round(v*100.0) / 100.0` pattern used at lines 175, 196, 223
and 131: round to 2 decimal places. -/
def round2 (x : ℚ) : ℚ := goRound (x * 100) / 100

/-- Line 153: `totalDays := (months / 12.0) * ONE_YEAR_DAYS`.  Because
`months` is an `int`, the untyped constant `12.0` is converted to `int`
and the division truncates. -/
def totalDaysOf (months : ℕ) : ℕ := (months / 12) * ONE_YEAR_DAYS

/-- Lines 160-170: the four-tier regressive withholding-tax switch on
`totalDays`, upper bounds exclusive. -/
def taxRateOf (totalDays : ℕ) : ℚ :=
  if totalDays < 180 then UNTIL_180_DAYS
  else if totalDays < 360 then UNTIL_360_DAYS
  else if totalDays < 720 then UNTIL_720_DAYS
  else MORE_THAN_720_DAYS

/-- Lines 147-173 of `SimulateCDB`: the arithmetic performed after a
successful metric fetch, before the final 2-decimal rounding. -/
def cdbBody (value initialValue : ℚ) (months : ℕ) : ℚ :=
  let dailyCdi := value / 100
  let businessDays := months * BUSINESS_DAYS
  let totalDays := totalDaysOf months
  let adjustedDailyCdi := dailyCdi * (CDI_PERCENT / 100)
  let finalAmount := ((⌊initialValue⌋ : ℤ) : ℚ) * (1 + adjustedDailyCdi) ^ businessDays
  let profit := finalAmount - initialValue
  let taxRate := taxRateOf totalDays
  let taxDiscount := profit * taxRate / 100
  finalAmount - taxDiscount

/-- Lines 137-176: `SimulateCDB`.  On a failed fetch it aborts the HTTP
context and then returns `0.0, nil` (line 144); on success it returns the
rounded body and a `nil` error. -/
def simulateCDB (metric : Option ℚ) (request : SimulationRequest) : GoResult :=
  match metric with
  | none => ⟨0, none⟩
  | some value => ⟨round2 (cdbBody value request.initialValue request.months), none⟩

/-- Lines 178-197: `SimulatePoupanca`.  On a failed fetch it returns
`0.0, nil` (line 185); otherwise the threshold rule of lines 188-192
chooses the monthly rate and line 194 compounds the principal. -/
def simulatePoupanca (metric : Option ℚ) (request : SimulationRequest) : GoResult :=
  match metric with
  | none => ⟨0, none⟩
  | some value =>
    let anualSelic := value / 100
    let monthTax :=
      if anualSelic < SELIC_LESS_THAN_EIGHT then 0.7 * anualSelic / 12 else MONTH_TAX_DEFAULT
    let finalAmount := request.initialValue * (1 + monthTax) ^ request.months
    ⟨round2 finalAmount, none⟩

/-- Lines 199-224: `SimulatePoupancaMonthly` (exact-rational model).  On a
failed fetch it returns `0.0, nil` (line 206).  The division by
`monthTax` at line 220 is `ℚ` division here, which silently yields 0 when
`monthTax = 0`; the float-faithful treatment of that case is
`simulatePoupancaMonthlyF` below. -/
def simulatePoupancaMonthly (metric : Option ℚ) (request : SimulationRequest) : GoResult :=
  match metric with
  | none => ⟨0, none⟩
  | some value =>
    let accumulatedValue : ℚ :=
      match request.accumulated with
      | some a => a
      | none => 0
    let anualSelic := value / 100
    let monthTax :=
      if anualSelic < SELIC_LESS_THAN_EIGHT then 0.7 * anualSelic / 12 else MONTH_TAX_DEFAULT
    let futureAmount :=
      request.initialValue * ((1 + monthTax) ^ request.months - 1) / monthTax
    let totalAmount := accumulatedValue * (1 + monthTax) ^ request.months + futureAmount
    ⟨round2 totalAmount, none⟩

/-- Lines 95-105 of `SimulateMonthlyRendiments`: `request.InitialValue` is
divided once by `request.Months` (line 95), then for each `i` from 0 to
`months - 1` the request is re-used with `Months = i` and `SimulateCDB` is
called with the per-iteration CDI fetch `cdiFetch i`; an iteration whose
error is non-nil is skipped (`continue`), otherwise its value is added. -/
def simulateMonthlyCdbFinal (cdiFetch : ℕ → Option ℚ) (request0 : SimulationRequest) : ℚ :=
  (List.range request0.months).foldl
    (fun cdbFinalValue i =>
      let r := simulateCDB (cdiFetch i)
        { initialValue := request0.initialValue / (request0.months : ℚ), months := i,
          accumulated := request0.accumulated }
      if r.err ≠ none then cdbFinalValue else cdbFinalValue + r.val)
    0

/-- Lines 95-131 of `SimulateMonthlyRendiments`, restricted to the
fixed-income (CDB) output `simulations.CdbValue`: the per-month loop sum,
then, when `Accumulated` is present, one extra `SimulateCDB` run on the
accumulated amount over the restored full month count (lines 117-128;
a non-nil error there returns early without a value, modelled as `none`),
and finally the single `math.Round(..*100)/100` of line 131.  The
poupanca leg (line 108) is modelled separately by
`simulatePoupancaMonthly` and does not feed into this value. -/
def simulateMonthlyRendimentsCdb (cdiFetch : ℕ → Option ℚ) (accCdiFetch : Option ℚ)
    (request0 : SimulationRequest) : Option ℚ :=
  let cdbFinalValue := simulateMonthlyCdbFinal cdiFetch request0
  match request0.accumulated with
  | none => some (round2 cdbFinalValue)
  | some accumulated =>
    let r := simulateCDB accCdiFetch
      { initialValue := accumulated, months := request0.months,
        accumulated := request0.accumulated }
    if r.err ≠ none then none
    else some (round2 (cdbFinalValue + r.val))

/-! ### General lemmas about the embedding -/

/-- Both branches of `SimulateCDB` return a `nil` error (lines 144 and
175): the `error` component of its result is always `none`. -/
theorem simulateCDB_err (metric : Option ℚ) (request : SimulationRequest) :
    (simulateCDB metric request).err = none := by
  cases metric <;> rfl

/-- The value component of `SimulateCDB`: 0 on a failed fetch, the
rounded body otherwise. -/
theorem simulateCDB_val (metric : Option ℚ) (request : SimulationRequest) :
    (simulateCDB metric request).val =
      (match metric with
       | none => 0
       | some value => round2 (cdbBody value request.initialValue request.months)) := by
  cases metric <;> rfl

/-- A left fold that only accumulates sums over `List.range` is the
corresponding finite sum. -/
theorem foldl_add_eq_sum (g : ℕ → ℚ) :
    ∀ (m : ℕ) (a : ℚ),
      (List.range m).foldl (fun acc i => acc + g i) a = a + ∑ i ∈ Finset.range m, g i := by
  intro m
  induction m with
  | zero => intro a; simp
  | succ n ih =>
    intro a
    rw [List.range_succ, List.foldl_append, ih, Finset.sum_range_succ]
    simp [add_assoc]

/-- The per-month loop of `SimulateMonthlyRendiments` adds every
iteration value: since `SimulateCDB` never returns a non-nil error, the
`continue` branch is unreachable and the loop computes the plain sum of
the per-iteration results. -/
theorem monthlyCdbFinal_eq_sum (cdiFetch : ℕ → Option ℚ) (request0 : SimulationRequest) :
    simulateMonthlyCdbFinal cdiFetch request0 =
      ∑ i ∈ Finset.range request0.months,
        (simulateCDB (cdiFetch i)
          { initialValue := request0.initialValue / (request0.months : ℚ), months := i,
            accumulated := request0.accumulated }).val := by
  unfold simulateMonthlyCdbFinal
  have hbody :
      (fun (cdbFinalValue : ℚ) (i : ℕ) =>
        let r := simulateCDB (cdiFetch i)
          { initialValue := request0.initialValue / (request0.months : ℚ), months := i,
            accumulated := request0.accumulated }
        if r.err ≠ none then cdbFinalValue else cdbFinalValue + r.val) =
      fun (cdbFinalValue : ℚ) (i : ℕ) =>
        cdbFinalValue + (simulateCDB (cdiFetch i)
          { initialValue := request0.initialValue / (request0.months : ℚ), months := i,
            accumulated := request0.accumulated }).val := by
    funext a i
    simp [simulateCDB_err]
  rw [hbody, foldl_add_eq_sum, zero_add]

/-- `goRound` is monotone. -/
theorem goRound_mono {x y : ℚ} (h : x ≤ y) : goRound x ≤ goRound y := by
  unfold goRound
  split_ifs with hx hy hy
  · exact_mod_cast Int.floor_le_floor (by linarith)
  · exact absurd (le_trans hx h) hy
  · have h1 : ⌈x - 1/2⌉ ≤ (0 : ℤ) := by
      have h0 : ⌈x - (1:ℚ)/2⌉ ≤ ⌈(0:ℚ)⌉ := Int.ceil_le_ceil (by linarith)
      simpa using h0
    have h2 : (0 : ℤ) ≤ ⌊y + 1/2⌋ := by
      have h0 : ⌊(0:ℚ)⌋ ≤ ⌊y + (1:ℚ)/2⌋ := Int.floor_le_floor (by linarith)
      simpa using h0
    exact_mod_cast le_trans h1 h2
  · exact_mod_cast Int.ceil_le_ceil (by linarith)

/-- Rounding to 2 decimal places is monotone. -/
theorem round2_mono {x y : ℚ} (h : x ≤ y) : round2 x ≤ round2 y := by
  unfold round2
  have h100 : x * 100 ≤ y * 100 := by nlinarith
  have := goRound_mono h100
  linarith

/-- The tax switch never selects a rate above 22.5. -/
theorem taxRateOf_le (d : ℕ) : taxRateOf d ≤ 45/2 := by
  unfold taxRateOf
  split_ifs <;>
    norm_num [UNTIL_180_DAYS, UNTIL_360_DAYS, UNTIL_720_DAYS, MORE_THAN_720_DAYS]

/-- The tax switch never selects a rate below 15. -/
theorem taxRateOf_nonneg (d : ℕ) : (15:ℚ) ≤ taxRateOf d := by
  unfold taxRateOf
  split_ifs <;>
    norm_num [UNTIL_180_DAYS, UNTIL_360_DAYS, UNTIL_720_DAYS, MORE_THAN_720_DAYS]

/-- The tax switch is antitone: more elapsed days never raise the rate. -/
theorem taxRateOf_antitone {d1 d2 : ℕ} (h : d1 ≤ d2) : taxRateOf d2 ≤ taxRateOf d1 := by
  unfold taxRateOf
  split_ifs <;>
    first
      | omega
      | norm_num [UNTIL_180_DAYS, UNTIL_360_DAYS, UNTIL_720_DAYS, MORE_THAN_720_DAYS]

/-- `totalDaysOf` is monotone in the month count. -/
theorem totalDaysOf_mono {m1 m2 : ℕ} (h : m1 ≤ m2) : totalDaysOf m1 ≤ totalDaysOf m2 :=
  Nat.mul_le_mul_right ONE_YEAR_DAYS (Nat.div_le_div_right h)

/-- The after-tax amount `A - (A - p) * t / 100` grows when the
compounded amount grows, the tax rate does not increase, the rate stays
within [0, 100], and the profit at the smaller term is non-negative. -/
theorem cdb_formula_mono (p A1 A2 t1 t2 : ℚ) (hp : p ≤ A1) (hA : A1 ≤ A2)
    (ht : t2 ≤ t1) (ht1 : t1 ≤ 100) (_ht2 : 0 ≤ t2) :
    A1 - (A1 - p) * t1 / 100 ≤ A2 - (A2 - p) * t2 / 100 := by
  have h1 : 0 ≤ (A2 - A1) * (1 - t2/100) := mul_nonneg (by linarith) (by linarith)
  have h2 : 0 ≤ (A1 - p) * (t1 - t2) := mul_nonneg (by linarith) (by linarith)
  nlinarith [h1, h2]

/-- For an integer, non-negative principal and a positive adjusted daily
rate, the pre-rounding CDB amount is monotone in the month count. -/
theorem cdbBody_mono (value p : ℚ) (m1 m2 : ℕ) (hp0 : 0 ≤ p)
    (hpint : ((⌊p⌋ : ℤ) : ℚ) = p) (hm : m1 ≤ m2)
    (hd : 0 < value / 100 * (CDI_PERCENT / 100)) :
    cdbBody value p m1 ≤ cdbBody value p m2 := by
  simp only [cdbBody]
  rw [hpint]
  have hone : (1:ℚ) ≤ 1 + value / 100 * (CDI_PERCENT / 100) := by linarith
  have hpow1 : (1:ℚ) ≤ (1 + value / 100 * (CDI_PERCENT / 100)) ^ (m1 * BUSINESS_DAYS) := by
    have h0 := pow_le_pow_right₀ hone (Nat.zero_le (m1 * BUSINESS_DAYS))
    simpa using h0
  have hpow12 :
      (1 + value / 100 * (CDI_PERCENT / 100)) ^ (m1 * BUSINESS_DAYS) ≤
        (1 + value / 100 * (CDI_PERCENT / 100)) ^ (m2 * BUSINESS_DAYS) :=
    pow_le_pow_right₀ hone (Nat.mul_le_mul_right BUSINESS_DAYS hm)
  exact cdb_formula_mono p _ _ _ _
    (le_mul_of_one_le_right hp0 hpow1)
    (mul_le_mul_of_nonneg_left hpow12 hp0)
    (taxRateOf_antitone (totalDaysOf_mono hm))
    (le_trans (taxRateOf_le _) (by norm_num))
    (le_trans (by norm_num) (taxRateOf_nonneg _))

/-! ### Claim theorems -/

/-- Written from the words of the spec (and of claim C1), for comparison
with `totalDaysOf` from the source: `totalCalendarDays = (months / 12) × 365`
with real-number division of `months` by 12. -/
def totalDaysRealDiv (months : ℕ) : ℚ := ((months : ℚ) / 12) * 365

/-- C1: the claim says `SimulateCDB` computes `totalCalendarDays` with
real-number division, so a 6-month simulation would use 182.5 days.  The
source performs Go integer division at line 153 (`months` is an `int`, so
the untyped constant `12.0` is converted to `int`): a 6-month simulation
uses `totalDays = 0`, not 182.5, and therefore falls in the `< 180`
(22.5%) tax tier. -/
theorem totalDays_integer_division :
    totalDaysOf 6 = 0 ∧ totalDaysRealDiv 6 = 365/2 ∧ taxRateOf (totalDaysOf 6) = 45/2 := by
  refine ⟨rfl, by norm_num [totalDaysRealDiv], ?_⟩
  norm_num [totalDaysOf, taxRateOf, ONE_YEAR_DAYS, UNTIL_180_DAYS]

/-- C2: the claim says a failed rate fetch is signalled to the caller as
a typed failure and never as a silent zero.  In the source, both
`SimulateCDB` (line 144) and `SimulatePoupanca` (line 185) return
`0.0, nil` on a failed fetch: the value 0 with a `nil` error, so the
callers' `err != nil` checks never observe the failure. -/
theorem rate_failure_returns_zero_and_nil_error (request : SimulationRequest) :
    simulateCDB none request = ⟨0, none⟩ ∧ simulatePoupanca none request = ⟨0, none⟩ :=
  ⟨rfl, rfl⟩

/-- C3 counterexample: `months = 12` gives `totalCalendarDays = 365`, and
the switch of lines 160-170 selects the 17.5% tier (`365 < 720` with
`365 < 360` false), not the 20.0% tier the claim names. -/
theorem tax_tier_months12_cx :
    totalDaysOf 12 = 365 ∧ taxRateOf (totalDaysOf 12) = 35/2 ∧
      taxRateOf (totalDaysOf 12) ≠ 20 := by
  refine ⟨rfl, ?_, ?_⟩ <;>
    norm_num [totalDaysOf, taxRateOf, ONE_YEAR_DAYS, UNTIL_720_DAYS]

/-- C3 (amended): the four-tier regressive schedule keyed on
`totalCalendarDays` with exclusive upper bounds is exactly as the claim
lists it (22.5% below 180 days, 20.0% below 360, 17.5% below 720, 15.0%
at or above 720), but `months = 12`, i.e. `totalCalendarDays = 365`,
selects the 17.5% tier, not the 20.0% one. -/
theorem tax_tier_schedule (d : ℕ) :
    (d < 180 → taxRateOf d = 45/2) ∧
    (180 ≤ d → d < 360 → taxRateOf d = 20) ∧
    (360 ≤ d → d < 720 → taxRateOf d = 35/2) ∧
    (720 ≤ d → taxRateOf d = 15) ∧
    taxRateOf (totalDaysOf 12) = 35/2 := by
  refine ⟨fun h1 => ?_, fun h1 h2 => ?_, fun h1 h2 => ?_, fun h1 => ?_,
    by norm_num [totalDaysOf, taxRateOf, ONE_YEAR_DAYS, UNTIL_720_DAYS]⟩ <;>
    · unfold taxRateOf
      split_ifs <;>
        first
          | omega
          | norm_num [UNTIL_180_DAYS, UNTIL_360_DAYS, UNTIL_720_DAYS, MORE_THAN_720_DAYS]

/-- Witness for `tax_tier_schedule`: one concrete day count per tier. -/
theorem tax_tier_schedule_witness :
    taxRateOf 0 = 45/2 ∧ taxRateOf 180 = 20 ∧ taxRateOf 365 = 35/2 ∧ taxRateOf 720 = 15 :=
  ⟨(tax_tier_schedule 0).1 (by norm_num),
   (tax_tier_schedule 180).2.1 (by norm_num) (by norm_num),
   (tax_tier_schedule 365).2.2.1 (by norm_num) (by norm_num),
   (tax_tier_schedule 720).2.2.2.1 (by norm_num)⟩

/-- C5: in monthly-contribution mode with goal `principal` and
`months ≥ 1`, the per-month contribution is the flat amount
`principal / months`, the engine is invoked once per elapsed month index
`i` from 0 to `months - 1` with `months = i` and that contribution as
principal, and all per-iteration fixed-income results are summed. -/
theorem monthly_contribution_per_month_engine (cdiFetch : ℕ → Option ℚ) (p : ℚ) (m : ℕ)
    (acc : Option ℚ) (_hm : 1 ≤ m) :
    simulateMonthlyCdbFinal cdiFetch ⟨p, m, acc⟩ =
      ∑ i ∈ Finset.range m,
        (simulateCDB (cdiFetch i) ⟨p / (m : ℚ), i, acc⟩).val :=
  monthlyCdbFinal_eq_sum cdiFetch ⟨p, m, acc⟩

/-- Witness for `monthly_contribution_per_month_engine` at
`principal = 100`, `months = 2`, CDI metric 13. -/
theorem monthly_contribution_per_month_engine_witness :
    1 ≤ 2 ∧
      simulateMonthlyCdbFinal (fun _ => some 13) ⟨100, 2, none⟩ =
        ∑ i ∈ Finset.range 2,
          (simulateCDB (some 13) ⟨100 / (2 : ℚ), i, none⟩).val :=
  ⟨by norm_num,
   monthly_contribution_per_month_engine (fun _ => some 13) 100 2 none (by norm_num)⟩

/-- C7: in monthly-contribution mode, when the CDI fetch fails for
exactly one of the `months` per-month iterations (index `j`), the
returned fixed-income total is still produced (no error) and equals the
(rounded) sum of the other `months - 1` iterations.  In the source this
happens because the failing `SimulateCDB` call returns `0.0, nil`
(line 144), which contributes nothing to the sum; the explicit
`continue` skip of line 102 is unreachable, but the numeric outcome is
exactly the claimed exclusion of the failed month. -/
theorem monthly_skip_on_single_failure (cdiFetch : ℕ → Option ℚ) (accCdiFetch : Option ℚ)
    (p : ℚ) (m j : ℕ) (_hj : j < m) (hfail : cdiFetch j = none)
    (_hrest : ∀ i ∈ Finset.range m, i ≠ j → cdiFetch i ≠ none) :
    simulateMonthlyRendimentsCdb cdiFetch accCdiFetch ⟨p, m, none⟩ =
      some (round2 (∑ i ∈ (Finset.range m).erase j,
        (simulateCDB (cdiFetch i) ⟨p / (m : ℚ), i, none⟩).val)) := by
  have hzero :
      (simulateCDB (cdiFetch j) ⟨p / (m : ℚ), j, none⟩).val = 0 := by
    rw [hfail]
    rfl
  have hsum := monthlyCdbFinal_eq_sum cdiFetch ⟨p, m, none⟩
  have herase :
      ∑ i ∈ (Finset.range m).erase j,
          (simulateCDB (cdiFetch i) ⟨p / (m : ℚ), i, none⟩).val =
        ∑ i ∈ Finset.range m,
          (simulateCDB (cdiFetch i) ⟨p / (m : ℚ), i, none⟩).val :=
    Finset.sum_erase _ hzero
  simp only [simulateMonthlyRendimentsCdb]
  rw [herase, hsum]

/-- Witness for `monthly_skip_on_single_failure`: three months, the
fetch for month 1 fails, the others return CDI 100. -/
theorem monthly_skip_on_single_failure_witness :
    1 < 3 ∧ (fun i => if i = 1 then none else some (100:ℚ)) 1 = none ∧
      simulateMonthlyRendimentsCdb (fun i => if i = 1 then none else some (100:ℚ))
          (some 100) ⟨3, 3, none⟩ =
        some (round2 (∑ i ∈ (Finset.range 3).erase 1,
          (simulateCDB ((fun i => if i = 1 then none else some (100:ℚ)) i)
            ⟨3 / (3 : ℚ), i, none⟩).val)) :=
  ⟨by norm_num, rfl,
   monthly_skip_on_single_failure (fun i => if i = 1 then none else some (100:ℚ))
     (some 100) 3 3 1 (by norm_num) rfl (by decide)⟩

/-- C4 (amended): the fixed-income total returned in monthly-contribution
mode is rounded to 2 decimals after the per-month results are summed, but
each per-term result entering the sum has additionally already been
rounded to 2 decimals by `SimulateCDB` itself (line 175), so the sum is
a sum of already-rounded terms. -/
theorem monthly_rounding_per_term_and_total (cdiFetch : ℕ → Option ℚ)
    (accCdiFetch : Option ℚ) (p : ℚ) (m : ℕ) :
    simulateMonthlyRendimentsCdb cdiFetch accCdiFetch ⟨p, m, none⟩ =
      some (round2 (∑ i ∈ Finset.range m,
        match cdiFetch i with
        | none => 0
        | some value => round2 (cdbBody value (p / (m : ℚ)) i))) := by
  simp only [simulateMonthlyRendimentsCdb]
  rw [monthlyCdbFinal_eq_sum]
  refine congrArg (fun x => some (round2 x)) (Finset.sum_congr rfl fun i _ => ?_)
  rw [simulateCDB_val]

/-- C4 counterexample: for goal 0.92 over 2 months with CDI 100, the
code returns 0.20 (each per-term result 0.1035 is first rounded to 0.10,
then the sum 0.20 is rounded again), while rounding only once after
summation, as the claim states, would give `round2 0.207 = 0.21`. -/
theorem monthly_single_rounding_cx :
    simulateMonthlyRendimentsCdb (fun _ => some 100) none ⟨92/100, 2, none⟩ =
        some (20/100) ∧
      round2 (∑ i ∈ Finset.range 2, cdbBody 100 (92/100 / (2:ℚ)) i) = 21/100 := by
  constructor
  · rw [show simulateMonthlyRendimentsCdb (fun _ => some 100) none ⟨92/100, 2, none⟩ =
        some (round2 (simulateMonthlyCdbFinal (fun _ => some 100) ⟨92/100, 2, none⟩))
        from rfl,
      monthlyCdbFinal_eq_sum]
    norm_num [Finset.sum_range_succ, simulateCDB, cdbBody, totalDaysOf, taxRateOf,
      round2, goRound, BUSINESS_DAYS, CDI_PERCENT, ONE_YEAR_DAYS, UNTIL_180_DAYS]
  · norm_num [Finset.sum_range_succ, cdbBody, totalDaysOf, taxRateOf,
      round2, goRound, BUSINESS_DAYS, CDI_PERCENT, ONE_YEAR_DAYS, UNTIL_180_DAYS]

/-- Written from the words of the spec (and of claim C6), for comparison
with `cdbBody` from the source: the compounded amount
`floor(principal) × (1 + adjustedDailyRate) ^ businessDays`. -/
def cdbFinalAmountSpec (principal rate : ℚ) (businessDays : ℕ) : ℚ :=
  ((⌊principal⌋ : ℤ) : ℚ) * (1 + rate) ^ businessDays

/-- Written from the words of the spec (and of claim C6): the profit is
the compounded (floored) amount minus the ORIGINAL unfloored principal. -/
def cdbProfitSpec (principal rate : ℚ) (businessDays : ℕ) : ℚ :=
  cdbFinalAmountSpec principal rate businessDays - principal

/-- C6: for every principal ≥ 0 and months ≥ 1, `SimulateCDB` compounds
the floored principal (`finalAmount = floor(principal) ×
(1 + adjustedDailyRate) ^ businessDays`, line 157) but computes the
profit used as tax base against the original unfloored principal
(`profit = finalAmount - initialValue`, line 158), and returns the
rounded `finalAmount - profit × taxRate / 100`. -/
theorem cdb_floors_principal_profit_unfloored (value p : ℚ) (m : ℕ) (acc : Option ℚ)
    (_hp : 0 ≤ p) (_hm : 1 ≤ m) :
    (simulateCDB (some value) ⟨p, m, acc⟩).val =
      round2 (cdbFinalAmountSpec p (value / 100) (m * BUSINESS_DAYS) -
        cdbProfitSpec p (value / 100) (m * BUSINESS_DAYS) *
          taxRateOf (totalDaysOf m) / 100) := by
  simp only [simulateCDB, cdbBody, cdbFinalAmountSpec, cdbProfitSpec, CDI_PERCENT]
  norm_num

/-- Witness for `cdb_floors_principal_profit_unfloored` at the fractional
principal 1000.5, 6 months, CDI 13. -/
theorem cdb_floors_principal_profit_unfloored_witness :
    0 ≤ (2001/2 : ℚ) ∧ 1 ≤ 6 ∧
      (simulateCDB (some 13) ⟨2001/2, 6, none⟩).val =
        round2 (cdbFinalAmountSpec (2001/2) (13 / 100) (6 * BUSINESS_DAYS) -
          cdbProfitSpec (2001/2) (13 / 100) (6 * BUSINESS_DAYS) *
            taxRateOf (totalDaysOf 6) / 100) :=
  ⟨by norm_num, by norm_num,
   cdb_floors_principal_profit_unfloored 13 (2001/2) 6 none (by norm_num) (by norm_num)⟩

/-- Written from the words of the spec (and of claim C8): the threshold
rule for the effective monthly savings rate, shared by both savings
projections. -/
def monthlyRateSpec (annualPercent : ℚ) : ℚ :=
  if annualPercent / 100 < 0.085 then 0.7 * (annualPercent / 100) / 12 else 0.005

/-- C8: both savings projections choose the effective monthly rate by the
same threshold rule `monthlyRateSpec` — below an annual rate of 0.085 the
rate is `(0.7 × annualRate) / 12`, otherwise exactly 0.005 — and in
particular an 8% annual rate gives 7/1500 = 0.004666... while a 9% annual
rate gives exactly 1/200 = 0.005. -/
theorem savings_threshold_rule (value : ℚ) (request : SimulationRequest) :
    (simulatePoupanca (some value) request).val =
        round2 (request.initialValue * (1 + monthlyRateSpec value) ^ request.months) ∧
      (simulatePoupancaMonthly (some value) request).val =
        round2 (request.accumulated.getD 0 * (1 + monthlyRateSpec value) ^ request.months +
          request.initialValue * ((1 + monthlyRateSpec value) ^ request.months - 1) /
            monthlyRateSpec value) ∧
      monthlyRateSpec 8 = 7/1500 ∧ monthlyRateSpec 9 = 1/200 := by
  refine ⟨?_, ?_, by norm_num [monthlyRateSpec], by norm_num [monthlyRateSpec]⟩
  · simp only [simulatePoupanca, monthlyRateSpec, SELIC_LESS_THAN_EIGHT, MONTH_TAX_DEFAULT]
  · cases hacc : request.accumulated <;>
      simp only [simulatePoupancaMonthly, monthlyRateSpec, SELIC_LESS_THAN_EIGHT,
        MONTH_TAX_DEFAULT, hacc, Option.getD]

/-! ### A float-faithful value model for the division-by-zero claim

`GoF` values model Go float64 results: `some q` is the finite value `q`
(exactly, ignoring float rounding, as in the `ℚ` model above), and `none`
is a non-finite value (NaN or ±Inf).  Go float64 arithmetic is total:
operations involving non-finite operands, and division by zero, produce
non-finite values instead of faulting, which is what these operations
capture.  Overflow to ±Inf of finite operations is abstracted away. -/

def GoF : Type := Option ℚ

def gAdd : GoF → GoF → GoF
  | some a, some b => some (a + b)
  | _, _ => none

def gSub : GoF → GoF → GoF
  | some a, some b => some (a - b)
  | _, _ => none

def gMul : GoF → GoF → GoF
  | some a, some b => some (a * b)
  | _, _ => none

/-- Go float division: division by zero yields a non-finite value
(±Inf for a non-zero numerator, NaN for 0/0) instead of faulting. -/
def gDiv : GoF → GoF → GoF
  | some a, some b => if b = 0 then none else some (a / b)
  | _, _ => none

/-- Go `math.Pow` with a natural exponent (`math.Pow(x, 0) = 1` for
every `x`, including NaN). -/
def gPow : GoF → ℕ → GoF
  | some a, n => some (a ^ n)
  | none, n => if n = 0 then some 1 else none

/-- `math.Round(x*100)/100` on a Go float: non-finite stays non-finite. -/
def gRound2 : GoF → GoF
  | some a => some (round2 a)
  | none => none

/-- Lines 199-224 again (`SimulatePoupancaMonthly`), now over the
float-faithful values `GoF`, so that the division by `monthTax` at
line 220 is Go float division.  The fetched metric and the request are
finite inputs; the result value may be non-finite. -/
def simulatePoupancaMonthlyF (metric : Option ℚ) (request : SimulationRequest) :
    GoF × Option Unit :=
  match metric with
  | none => (some 0, none)
  | some value =>
    let accumulatedValue : GoF :=
      some (match request.accumulated with
            | some a => a
            | none => 0)
    let anualSelic := value / 100
    let monthTax : ℚ :=
      if anualSelic < SELIC_LESS_THAN_EIGHT then 0.7 * anualSelic / 12 else MONTH_TAX_DEFAULT
    let futureAmount := gDiv
      (gMul (some request.initialValue)
        (gSub (gPow (some (1 + monthTax)) request.months) (some 1)))
      (some monthTax)
    let totalAmount :=
      gAdd (gMul accumulatedValue (gPow (some (1 + monthTax)) request.months)) futureAmount
    (gRound2 totalAmount, none)

/-- C9: when the fetched policy rate is 0 the effective monthly rate is
`0.7 × 0 / 12 = 0`, and evaluating the annuity formula of line 220 at
that rate is total: Go float division never faults, the `0/0` inside the
formula yields NaN (the non-finite value `none` here), and the call
returns that defined result with a `nil` error instead of propagating a
division fault. -/
theorem poupanca_monthly_zero_rate_total (p : ℚ) (m : ℕ) (acc : Option ℚ) :
    simulatePoupancaMonthlyF (some 0) ⟨p, m, acc⟩ = (none, none) := by
  have hrate : ((0:ℚ) / 100 < SELIC_LESS_THAN_EIGHT) = True := by
    simp [SELIC_LESS_THAN_EIGHT]
    norm_num
  simp only [simulatePoupancaMonthlyF, hrate, if_true]
  norm_num [gDiv, gMul, gSub, gPow, gAdd, gRound2]

/-- C10 counterexample: with a fixed fetched CDI of 100 (adjusted daily
rate 1 > 0) and principal 0.5 ≥ 0, the fixed-income result DROPS from
0.11 at months = 11 to 0.09 at months = 12: the floored principal 0 makes
the profit negative, its tax acts as a credit, and the credit shrinks
when the tax tier falls at 12 months, so the result is not monotone. -/
theorem cdb_not_monotone_cx :
    0 ≤ (1/2 : ℚ) ∧ (0:ℚ) < 100 / 100 * (CDI_PERCENT / 100) ∧ 1 ≤ 11 ∧ 11 ≤ 12 ∧
      (simulateCDB (some 100) ⟨1/2, 12, none⟩).val <
        (simulateCDB (some 100) ⟨1/2, 11, none⟩).val := by
  refine ⟨by norm_num, by norm_num [CDI_PERCENT], by norm_num, by norm_num, ?_⟩
  norm_num [simulateCDB, cdbBody, totalDaysOf, taxRateOf, round2, goRound,
    BUSINESS_DAYS, CDI_PERCENT, ONE_YEAR_DAYS, UNTIL_180_DAYS, UNTIL_720_DAYS]

/-- C10 (amended): for every integer principal ≥ 0 (the claim fails for
fractional principals, whose floored compounding can make the profit
negative), months ≥ 1 and a fixed fetched rate with positive adjusted
daily rate, the fixed-income result of `SimulateCDB` is monotonically
non-decreasing in the month count. -/
theorem cdb_monotone_integer_principal (value p : ℚ) (m1 m2 : ℕ) (acc : Option ℚ)
    (hp0 : 0 ≤ p) (hpint : ((⌊p⌋ : ℤ) : ℚ) = p) (_hm1 : 1 ≤ m1) (hm : m1 ≤ m2)
    (hv : 0 < value / 100 * (CDI_PERCENT / 100)) :
    (simulateCDB (some value) ⟨p, m1, acc⟩).val ≤
      (simulateCDB (some value) ⟨p, m2, acc⟩).val := by
  have h1 : (simulateCDB (some value) ⟨p, m1, acc⟩).val = round2 (cdbBody value p m1) := rfl
  have h2 : (simulateCDB (some value) ⟨p, m2, acc⟩).val = round2 (cdbBody value p m2) := rfl
  rw [h1, h2]
  exact round2_mono (cdbBody_mono value p m1 m2 hp0 hpint hm hv)

/-- Witness for `cdb_monotone_integer_principal` at principal 1000,
months 1 ≤ 2, CDI 13. -/
theorem cdb_monotone_integer_principal_witness :
    0 ≤ (1000:ℚ) ∧ ((⌊(1000:ℚ)⌋ : ℤ) : ℚ) = 1000 ∧ 1 ≤ 1 ∧ 1 ≤ 2 ∧
      (0:ℚ) < 13 / 100 * (CDI_PERCENT / 100) ∧
      (simulateCDB (some 13) ⟨1000, 1, none⟩).val ≤
        (simulateCDB (some 13) ⟨1000, 2, none⟩).val :=
  ⟨by norm_num, by norm_num, by norm_num, by norm_num, by norm_num [CDI_PERCENT],
   cdb_monotone_integer_principal 13 1000 1 2 none (by norm_num) (by norm_num)
     (by norm_num) (by norm_num) (by norm_num [CDI_PERCENT])⟩

end Rendiments
